import Mathlib

/-!
Shallow embedding of `agent.py` from the grocery-tracking-agent repository.

The script is a linear CrewAI pipeline: it initializes an expense-history
JSON file, loads a grocery receipt (from an image via a vision model, or
from a markdown file), builds five agents and five tasks, and runs them as
a sequential crew.  External effects (the vision model, the LLM calls, the
markdown-to-HTML converter, JSON serialization/parsing) are parameters of
the embedding; the file system is an association list from paths to string
contents.
-/

namespace GroceryAgent

/-- A JSON value, used to model the Python dictionaries the script stores
in `data/expense_history.json`. -/
inductive Json where
  | null
  | str (s : String)
  | num (n : Int)
  | arr (xs : List Json)
  | obj (fields : List (String × Json))

/-- File system state: an association list from path to file contents.
A path that is absent from the list models a file that does not exist;
`fsWrite` shadows any earlier binding, so lookups see the latest write. -/
abbrev FS := List (String × String)

/-- Read a file: `none` models a missing file. -/
def fsRead (fs : FS) (p : String) : Option String :=
  List.lookup p fs

/-- Write (create or fully replace) a file, as Python `open(p, 'w')` does. -/
def fsWrite (fs : FS) (p : String) (c : String) : FS :=
  (p, c) :: fs

theorem fsRead_fsWrite_self (fs : FS) (p c : String) :
    fsRead (fsWrite fs p c) p = some c := by
  simp [fsRead, fsWrite, List.lookup]

theorem fsRead_fsWrite_other (fs : FS) (p q c : String) (h : q ≠ p) :
    fsRead (fsWrite fs p c) q = fsRead fs q := by
  simp only [fsRead, fsWrite, List.lookup]
  rw [beq_eq_false_iff_ne.mpr h]

/-- `data_dir / 'expense_history.json'` (agent.py line 84). -/
def expense_history_path : String := "data/expense_history.json"

/-- The fixed default structure of agent.py lines 85-89. -/
def default_expense_history : Json :=
  .obj [("expenses", .arr []),
        ("categories", .obj []),
        ("monthly_summaries", .obj [])]

/-- Result of the expense-history initialization block: the file system
after the block, the in-memory `expense_history` value, and the console
messages printed. -/
structure ExpenseInit where
  fs : FS
  expense_history : Json
  logs : List String

/-- The branch of agent.py lines 93-96: write the default structure to the
file and set the in-memory history to the default.  `dump` models
`json.dump` with `indent=2`. -/
def createDefaultHistory (dump : Json → String) (fs : FS) : ExpenseInit :=
  ⟨fsWrite fs expense_history_path (dump default_expense_history),
   default_expense_history,
   ["Created new expense history file with default structure"]⟩

/-- agent.py lines 91-106.  `parse` models `json.load`: `none` models a
`json.JSONDecodeError` on malformed content.  A file whose content is the
empty string has `st_size == 0`. -/
def initExpenseHistory (dump : Json → String) (parse : String → Option Json)
    (fs : FS) : ExpenseInit :=
  match fsRead fs expense_history_path with
  | none => createDefaultHistory dump fs
  | some s =>
    if s = "" then
      createDefaultHistory dump fs
    else
      match parse s with
      | some j => ⟨fs, j, ["Expense history loaded successfully!"]⟩
      | none =>
        ⟨fsWrite fs expense_history_path (dump default_expense_history),
         default_expense_history,
         ["Error: expense_history.json is corrupted. Creating new file..."]⟩

/-- `data/receipt.png` (agent.py line 110). -/
def receipt_image_path : String := "data/receipt.png"

/-- `data/grocery_receipt.md` (agent.py lines 66 and 120). -/
def grocery_receipt_md_path : String := "data/grocery_receipt.md"

/-- Result of one receipt-loading step: file system afterwards, the value
bound to `receipt_markdown` (`none` models Python `None`), and console
messages. -/
structure ReceiptStep where
  fs : FS
  result : Option String
  logs : List String
deriving DecidableEq, Repr

/-- agent.py lines 41-77, `process_receipt_image`.  `vision` models the
outcome of `Image.open` followed by `vision_model.generate_content`:
`.ok content` is the generated markdown text, `.error e` is any exception
raised while loading or processing the image (the local file write of the
successful branch is modeled as succeeding).  On success the content is
saved to `data/grocery_receipt.md` and returned; on an exception the
handler of lines 75-77 logs the error and the function returns `None`. -/
def process_receipt_image (fs : FS) (vision : Except String String) :
    ReceiptStep :=
  match vision with
  | .ok content =>
    ⟨fsWrite fs grocery_receipt_md_path content, some content,
     ["Receipt processed and saved to data/grocery_receipt.md"]⟩
  | .error e =>
    ⟨fs, none, ["Error processing receipt image: " ++ e]⟩

/-- Python truthiness of `receipt_markdown`: `None` and the empty string
are falsy. -/
def pyFalsy : Option String → Bool
  | none => true
  | some s => s = ""

/-- agent.py lines 118-134: the markdown-file fallback.  When
`data/grocery_receipt.md` is missing it is created empty (lines 121-124);
the file is then read and rendered through the `markdown` converter `md`
(lines 126-127).  The `except` of lines 132-134 sets `receipt_markdown`
to the empty string; in the embedding file reads are total, so that
branch is the unreachable `none` case of the match. -/
def loadMarkdownFallback (fs : FS) (md : String → String)
    (logs : List String) : ReceiptStep :=
  let fs2 : FS :=
    if (fsRead fs grocery_receipt_md_path).isSome then fs
    else fsWrite fs grocery_receipt_md_path ""
  match fsRead fs2 grocery_receipt_md_path with
  | some content => ⟨fs2, some (md content), logs⟩
  | none => ⟨fs2, some "", logs⟩

/-- agent.py lines 108-134: `receipt_markdown` starts as the empty
string; the receipt image is processed when present; whenever the value
is still falsy, the markdown-file fallback runs. -/
def loadReceiptPhase1 (fs : FS) (vision : Except String String)
    (md : String → String) : ReceiptStep :=
  let step1 : ReceiptStep :=
    if (fsRead fs receipt_image_path).isSome then
      process_receipt_image fs vision
    else
      ⟨fs, some "", []⟩
  if pyFalsy step1.result then
    loadMarkdownFallback step1.fs md step1.logs
  else
    step1

/-- agent.py lines 174-176: the unconditional re-read of
`data/grocery_receipt.md` rendered through the `markdown` converter.
`none` models an uncaught `FileNotFoundError` (the `open` here has no
try/except around it). -/
def loadReceiptFinal (fs : FS) (md : String → String) : Option String :=
  (fsRead fs grocery_receipt_md_path).map md

/-- The value of `receipt_markdown` at the point where
`read_receipt_task` is built (after line 176): the phase-1 loading runs
first, then the unconditional re-read replaces its result. -/
def receiptMarkdownAtTaskBuild (fs : FS) (vision : Except String String)
    (md : String → String) : Option String :=
  loadReceiptFinal (loadReceiptPhase1 fs vision md).fs md

/-- The description f-string of `read_receipt_task` (agent.py lines
322-327), as a function of the `receipt_markdown` value and of `today`. -/
def read_receipt_task_description (receipt todayString : String) : String :=
  "Analyze the receipt markdown file provided: " ++ receipt ++
  ". Extract information on items purchased, their counts, weights, and units. " ++
  "Additionally, extract today's date information which is provided here: " ++
  todayString ++
  ". Ensure all item names are converted into clear, human-readable text."

/-- The error message of agent.py line 29. -/
def api_key_error_msg : String :=
  "Please set GOOGLE_API_KEY in your environment variables"

/-- agent.py lines 27-29: `os.getenv` returns `none` when the variable is
unset, and `if not GOOGLE_API_KEY` also rejects the empty string. -/
def checkGoogleApiKey (key : Option String) : Except String String :=
  match key with
  | none => .error api_key_error_msg
  | some k => if k = "" then .error api_key_error_msg else .ok k

/-- Outcome of running the module top to bottom past line 27: either the
`ValueError` of line 29, or the ordered list of model, agent, tool, task
and crew objects the rest of the module constructs (lines 32-517, in
source order). -/
structure ProgramInit where
  constructed : List String
  failure : Option String

/-- agent.py module initialization from line 27 on: the API-key check of
lines 27-29 runs first; every construction of a model, tool, agent, task
or crew object comes after it. -/
def initProgram (key : Option String) : ProgramInit :=
  match checkGoogleApiKey key with
  | .error e => ⟨[], some e⟩
  | .ok _ =>
    ⟨["gemini_model", "vision_model", "receipt_interpreter_agent",
      "expiration_date_search_web_tool", "expiration_date_search_agent",
      "grocery_tracker_agent", "recipe_web_tool",
      "rest_grocery_recipe_agent", "read_receipt_task",
      "expiration_date_search_task", "grocery_tracking_task",
      "recipe_recommendation_task", "expense_tracking_agent",
      "expense_tracking_task", "crew"], none⟩

/-- A `WebsiteSearchTool` construction: the tool's variable name and the
fixed website it is pointed at. -/
structure WebsiteTool where
  name : String
  website : String
deriving DecidableEq, Repr

/-- agent.py lines 209-226. -/
def expiration_date_search_web_tool : WebsiteTool :=
  ⟨"expiration_date_search_web_tool", "https://www.stilltasty.com/"⟩

/-- agent.py lines 275-292. -/
def recipe_web_tool : WebsiteTool :=
  ⟨"recipe_web_tool", "https://www.americastestkitchen.com/recipes"⟩

/-- All `WebsiteSearchTool` constructions in the module, in source
order. -/
def websiteTools : List WebsiteTool :=
  [expiration_date_search_web_tool, recipe_web_tool]

/-- An `Agent` construction: its role string and the web tools passed in
its `tools` argument (agents constructed without a `tools` argument get
the empty list). -/
structure AgentSpec where
  role : String
  tools : List WebsiteTool
deriving DecidableEq, Repr

/-- agent.py lines 184-202. -/
def receipt_interpreter_agent : AgentSpec :=
  ⟨"Receipt Markdown Interpreter", []⟩

/-- agent.py lines 230-247. -/
def expiration_date_search_agent : AgentSpec :=
  ⟨"Expiration Date Estimation Specialist", [expiration_date_search_web_tool]⟩

/-- agent.py lines 252-270. -/
def grocery_tracker_agent : AgentSpec :=
  ⟨"Grocery Inventory Tracker", []⟩

/-- agent.py lines 295-315. -/
def rest_grocery_recipe_agent : AgentSpec :=
  ⟨"Grocery Recipe Recommendation Specialist", [recipe_web_tool]⟩

/-- agent.py lines 440-458. -/
def expense_tracking_agent : AgentSpec :=
  ⟨"Grocery Expense Analyst", []⟩

/-- The `agents` list of the `Crew` construction, agent.py lines
502-508. -/
def crewAgents : List AgentSpec :=
  [receipt_interpreter_agent, expiration_date_search_agent,
   grocery_tracker_agent, rest_grocery_recipe_agent,
   expense_tracking_agent]

/-- A `Task` construction: its variable name, its agent, the names of the
tasks in its `context` argument (whose outputs it consumes), and its
`output_file` argument. -/
structure TaskSpec where
  name : String
  agent : AgentSpec
  context : List String
  output_file : Option String
deriving DecidableEq, Repr

/-- agent.py lines 320-340. -/
def read_receipt_task : TaskSpec :=
  ⟨"read_receipt_task", receipt_interpreter_agent, [], none⟩

/-- agent.py lines 345-365. -/
def expiration_date_search_task : TaskSpec :=
  ⟨"expiration_date_search_task", expiration_date_search_agent,
   ["read_receipt_task"], none⟩

/-- agent.py lines 370-393. -/
def grocery_tracking_task : TaskSpec :=
  ⟨"grocery_tracking_task", grocery_tracker_agent,
   ["expiration_date_search_task"], some "data/grocery_tracker.json"⟩

/-- agent.py lines 398-435. -/
def recipe_recommendation_task : TaskSpec :=
  ⟨"recipe_recommendation_task", rest_grocery_recipe_agent,
   ["grocery_tracking_task"], some "data/recipe_recommendation.json"⟩

/-- agent.py lines 463-494. -/
def expense_tracking_task : TaskSpec :=
  ⟨"expense_tracking_task", expense_tracking_agent,
   ["read_receipt_task"], some "data/expense_history.json"⟩

/-- The `tasks` list of the `Crew` construction, agent.py lines
509-515. -/
def crewTasks : List TaskSpec :=
  [read_receipt_task, expiration_date_search_task, grocery_tracking_task,
   recipe_recommendation_task, expense_tracking_task]

/-- One scheduling event of a crew run: stage `i` starts or finishes
(its output becomes available exactly when it finishes). -/
inductive ExecEvent where
  | start (i : Nat)
  | finish (i : Nat)
deriving DecidableEq, Repr

/-- The schedule produced by CrewAI's sequential process (the `Crew` of
agent.py lines 501-517 is built without a `process` argument, so
`crew.kickoff()` on line 520 uses the default sequential process, which
executes the tasks one by one in list order on the calling thread): each
stage runs to completion before the next one starts. -/
def sequentialSchedule : Nat → List ExecEvent
  | 0 => []
  | n + 1 => sequentialSchedule n ++ [.start n, .finish n]

/-- The schedule of `crew.kickoff()` for the five crew tasks. -/
def crewKickoffSchedule : List ExecEvent :=
  sequentialSchedule crewTasks.length

/-- The stages that have started but not finished after a list of
events. -/
def runningStages (evs : List ExecEvent) : List Nat :=
  evs.foldl
    (fun acc e =>
      match e with
      | .start i => i :: acc
      | .finish i => acc.erase i) []

/-- File-system effect of `crew.kickoff()` (agent.py line 520).  `exec`
models one LLM-mediated task execution: it maps the task and the outputs
of all earlier tasks to the task's raw output string.  Tasks run in list
order; a task constructed with an `output_file` has its output written to
that file by the framework, which opens the file in write mode and
replaces its contents (crewai 0.80.0, `Task._save_file`).  Returns the
final file system and the outputs of the tasks in order. -/
def runCrewFiles (exec : TaskSpec → List String → String) (fs : FS) :
    FS × List String :=
  crewTasks.foldl
    (fun acc t =>
      let out := exec t acc.2
      match t.output_file with
      | some p => (fsWrite acc.1 p out, acc.2 ++ [out])
      | none => (acc.1, acc.2 ++ [out]))
    (fs, [])

/-! ## Helper lemmas -/

theorem loadMarkdownFallback_file_exists (fs : FS) (md : String → String)
    (logs : List String) :
    ∃ c, fsRead (loadMarkdownFallback fs md logs).fs grocery_receipt_md_path
          = some c := by
  unfold loadMarkdownFallback
  cases h : fsRead fs grocery_receipt_md_path with
  | some content => exact ⟨content, by simp [h]⟩
  | none =>
    exact ⟨"", by simp [h, fsRead_fsWrite_self]⟩

theorem runCrewFiles_expense_file (exec : TaskSpec → List String → String)
    (fs : FS) :
    fsRead (runCrewFiles exec fs).1 expense_history_path
      = (runCrewFiles exec fs).2.getLast? := by
  simp [runCrewFiles, crewTasks, read_receipt_task,
    expiration_date_search_task, grocery_tracking_task,
    recipe_recommendation_task, expense_tracking_task,
    expense_history_path, fsRead_fsWrite_self]

/-! ## Claims -/

/-- C1: if the expense-history file exists, is non-empty, and its content
does not parse as JSON (`json.load` raises `JSONDecodeError`), module
initialization does not crash: the file is rewritten with the
serialization of the fixed default structure
(expenses empty list, categories empty object, monthly_summaries empty
object) and the in-memory `expense_history` is set to that default. -/
theorem corrupted_expense_history_reset
    (dump : Json → String) (parse : String → Option Json) (fs : FS)
    (s : String) (hex : fsRead fs expense_history_path = some s)
    (hne : s ≠ "") (hbad : parse s = none) :
    initExpenseHistory dump parse fs =
      ⟨fsWrite fs expense_history_path (dump default_expense_history),
       default_expense_history,
       ["Error: expense_history.json is corrupted. Creating new file..."]⟩ := by
  unfold initExpenseHistory
  rw [hex]
  simp [hne, hbad]

/-- Witness for C1: a concrete file system whose history file holds
non-empty content that every-input-rejecting parse refuses. -/
theorem corrupted_expense_history_reset_witness :
    initExpenseHistory (fun _ => "dumped-default") (fun _ => none)
      [(expense_history_path, "not-json")] =
      ⟨[(expense_history_path, "dumped-default"),
        (expense_history_path, "not-json")],
       default_expense_history,
       ["Error: expense_history.json is corrupted. Creating new file..."]⟩ :=
  corrupted_expense_history_reset (fun _ => "dumped-default") (fun _ => none)
    [(expense_history_path, "not-json")] "not-json" (by decide) (by decide) rfl

/-- C2: if no expense-history file exists at `data/expense_history.json`,
one is created containing exactly the serialization of the fixed default
structure, and the in-memory history is that default. -/
theorem missing_expense_history_created
    (dump : Json → String) (parse : String → Option Json) (fs : FS)
    (hmiss : fsRead fs expense_history_path = none) :
    initExpenseHistory dump parse fs =
      ⟨fsWrite fs expense_history_path (dump default_expense_history),
       default_expense_history,
       ["Created new expense history file with default structure"]⟩ := by
  unfold initExpenseHistory
  rw [hmiss]
  rfl

/-- Witness for C2: the empty file system has no history file. -/
theorem missing_expense_history_created_witness :
    initExpenseHistory (fun _ => "dumped-default") (fun _ => none) [] =
      ⟨[(expense_history_path, "dumped-default")],
       default_expense_history,
       ["Created new expense history file with default structure"]⟩ :=
  missing_expense_history_created (fun _ => "dumped-default") (fun _ => none)
    [] rfl

/-- C10: a zero-byte (existing but empty) expense-history file is treated
exactly like a missing one: both take the create-default branch, which
overwrites the file with the serialized fixed default and sets the
in-memory history to the default; the parser is never consulted (the
result is the same for every parse function). -/
theorem empty_expense_history_like_missing
    (dump : Json → String) (p q : String → Option Json) (fs fsm : FS)
    (hemp : fsRead fs expense_history_path = some "")
    (hmiss : fsRead fsm expense_history_path = none) :
    initExpenseHistory dump p fs = createDefaultHistory dump fs
    ∧ initExpenseHistory dump q fsm = createDefaultHistory dump fsm
    ∧ initExpenseHistory dump p fs = initExpenseHistory dump q fs
    ∧ (initExpenseHistory dump p fs).expense_history = default_expense_history
    ∧ fsRead (initExpenseHistory dump p fs).fs expense_history_path
        = some (dump default_expense_history) := by
  have h1 : initExpenseHistory dump p fs = createDefaultHistory dump fs := by
    unfold initExpenseHistory
    rw [hemp]
    simp
  have h2 : initExpenseHistory dump q fs = createDefaultHistory dump fs := by
    unfold initExpenseHistory
    rw [hemp]
    simp
  have h3 : initExpenseHistory dump q fsm = createDefaultHistory dump fsm := by
    unfold initExpenseHistory
    rw [hmiss]
  refine ⟨h1, h3, h1.trans h2.symm, ?_, ?_⟩
  · rw [h1]
    rfl
  · rw [h1]
    exact fsRead_fsWrite_self fs expense_history_path
      (dump default_expense_history)

/-- Witness for C10: a file system holding an empty history file, next to
one with no history file; two different parsers. -/
theorem empty_expense_history_like_missing_witness :
    initExpenseHistory (fun _ => "dumped-default") (fun _ => some .null)
        [(expense_history_path, "")]
      = createDefaultHistory (fun _ => "dumped-default")
        [(expense_history_path, "")]
    ∧ initExpenseHistory (fun _ => "dumped-default") (fun _ => none) []
      = createDefaultHistory (fun _ => "dumped-default") []
    ∧ initExpenseHistory (fun _ => "dumped-default") (fun _ => some .null)
        [(expense_history_path, "")]
      = initExpenseHistory (fun _ => "dumped-default") (fun _ => none)
        [(expense_history_path, "")]
    ∧ (initExpenseHistory (fun _ => "dumped-default") (fun _ => some .null)
        [(expense_history_path, "")]).expense_history
      = default_expense_history
    ∧ fsRead (initExpenseHistory (fun _ => "dumped-default")
        (fun _ => some .null) [(expense_history_path, "")]).fs
        expense_history_path
      = some "dumped-default" :=
  empty_expense_history_like_missing (fun _ => "dumped-default")
    (fun _ => some .null) (fun _ => none)
    [(expense_history_path, "")] [] (by decide) rfl

/-- C3 counterexample: at a concrete failing image-processing input,
`process_receipt_image` returns Python `None`, which is not the empty
string; the claim that the result falls back to an empty string is false
as stated. -/
theorem process_receipt_image_error_counterexample :
    (process_receipt_image [] (.error "bad image")).result = none
    ∧ (process_receipt_image [] (.error "bad image")).result ≠ some "" :=
  ⟨rfl, by decide⟩

/-- C3 (amended): every modeled error raised during receipt-image loading
and processing is caught by the handler of agent.py lines 75-77, an error
message is logged, and the function returns normally with `None` — a
falsy value, so the caller then falls back to the markdown file; no
exception propagates out of `process_receipt_image`. -/
theorem process_receipt_image_error_caught (fs : FS) (e : String) :
    process_receipt_image fs (.error e) =
      ⟨fs, none, ["Error processing receipt image: " ++ e]⟩
    ∧ pyFalsy (process_receipt_image fs (.error e)).result = true :=
  ⟨rfl, rfl⟩

/-- C5: when the `GOOGLE_API_KEY` environment variable is unset or empty,
module initialization fails fast with the `ValueError` of line 29 and no
model, tool, agent, task or crew object is constructed. -/
theorem missing_api_key_fails_fast (key : Option String)
    (h : key = none ∨ key = some "") :
    initProgram key = ⟨[], some api_key_error_msg⟩ := by
  rcases h with h | h <;> subst h <;> rfl

/-- Witness for C5: the unset-variable case. -/
theorem missing_api_key_fails_fast_witness :
    initProgram none = ⟨[], some api_key_error_msg⟩ :=
  missing_api_key_fails_fast none (Or.inl rfl)

/-- C6: the crew runs a fixed ordered list of exactly five stages (read
receipt, expiration-date estimation, grocery tracking, recipe
recommendation, expense tracking), and every name in a stage's declared
`context` is the name of a stage strictly earlier in that order. -/
theorem crew_five_stages_context_earlier :
    crewTasks.length = 5
    ∧ crewTasks.map TaskSpec.name =
        ["read_receipt_task", "expiration_date_search_task",
         "grocery_tracking_task", "recipe_recommendation_task",
         "expense_tracking_task"]
    ∧ ∀ i, i < crewTasks.length →
        ∀ c ∈ (crewTasks.getD i read_receipt_task).context,
          ∃ j, j < i ∧ (crewTasks.getD j read_receipt_task).name = c := by
  refine ⟨rfl, rfl, ?_⟩
  decide

/-- C7: the kickoff schedule is strictly sequential: each later stage
starts only after the previous stage has finished (its output is
available), and at every instant at most one stage is running. -/
theorem crew_kickoff_sequential :
    (∀ i, i < crewTasks.length - 1 →
       List.indexOf (ExecEvent.finish i) crewKickoffSchedule <
         List.indexOf (ExecEvent.start (i + 1)) crewKickoffSchedule)
    ∧ ∀ k, k ≤ crewKickoffSchedule.length →
        (runningStages (crewKickoffSchedule.take k)).length ≤ 1 := by
  constructor
  · decide
  · decide

/-- C8: the module constructs exactly two website-search tools, pointed at
`https://www.stilltasty.com/` (used by the expiration-date agent) and
`https://www.americastestkitchen.com/recipes` (used by the recipe agent);
every tool held by any crew agent is one of these two, so no other
website is targeted. -/
theorem two_website_tools_fixed_sites :
    websiteTools.length = 2
    ∧ websiteTools.map WebsiteTool.website =
        ["https://www.stilltasty.com/",
         "https://www.americastestkitchen.com/recipes"]
    ∧ expiration_date_search_agent.tools = [expiration_date_search_web_tool]
    ∧ rest_grocery_recipe_agent.tools = [recipe_web_tool]
    ∧ ∀ a ∈ crewAgents, ∀ t ∈ a.tools, t ∈ websiteTools := by
  refine ⟨rfl, rfl, rfl, rfl, ?_⟩
  decide

/-- C9: whatever the image-processing outcome, the `receipt_markdown`
value in force when `read_receipt_task` is built is the markdown-rendered
content of `data/grocery_receipt.md`: the unconditional re-read of lines
174-176 replaces the string returned by image processing, and the task
description embeds exactly that re-read value. -/
theorem receipt_text_always_from_markdown_file (fs : FS)
    (vision : Except String String) (md : String → String) :
    ∃ c,
      fsRead (loadReceiptPhase1 fs vision md).fs grocery_receipt_md_path
        = some c
      ∧ receiptMarkdownAtTaskBuild fs vision md = some (md c)
      ∧ ∀ t : String,
          (receiptMarkdownAtTaskBuild fs vision md).map
            (fun r => read_receipt_task_description r t)
          = some (read_receipt_task_description (md c) t) := by
  have key : ∃ c,
      fsRead (loadReceiptPhase1 fs vision md).fs grocery_receipt_md_path
        = some c := by
    unfold loadReceiptPhase1
    cases himg : fsRead fs receipt_image_path with
    | none =>
      simp only [himg, Option.isSome_none, Bool.false_eq_true, if_false]
      simp [pyFalsy]
      exact loadMarkdownFallback_file_exists fs md []
    | some img =>
      simp only [himg, Option.isSome_some, if_true]
      cases vision with
      | error e =>
        simp only [process_receipt_image, pyFalsy, if_true]
        exact loadMarkdownFallback_file_exists fs md _
      | ok content =>
        by_cases hc : content = ""
        · subst hc
          simp only [process_receipt_image, pyFalsy]
          simp
          exact loadMarkdownFallback_file_exists _ md _
        · simp only [process_receipt_image, pyFalsy]
          simp [hc]
          exact ⟨content, fsRead_fsWrite_self fs grocery_receipt_md_path
            content⟩
  obtain ⟨c, hc⟩ := key
  refine ⟨c, hc, ?_, ?_⟩
  · simp [receiptMarkdownAtTaskBuild, loadReceiptFinal, hc]
  · intro t
    simp [receiptMarkdownAtTaskBuild, loadReceiptFinal, hc]

/-- C4 counterexample: a concrete run.  The history file holds an old
entry and parses fine, so it is loaded at start; the end-of-run write
stores the expense-tracking stage's output in the file, replacing the
previous contents — the old entry no longer occurs anywhere in the
file. -/
theorem expense_history_not_preserved_counterexample :
    fsRead (runCrewFiles (fun _ _ => "new-run-summary")
        (initExpenseHistory (fun _ => "dumped-default")
          (fun _ => some (.obj []))
          [(expense_history_path, "old-expense-entry")]).fs).1
      expense_history_path = some "new-run-summary"
    ∧ ¬ List.IsInfix (String.toList "old-expense-entry")
        (String.toList "new-run-summary") := by
  constructor
  · decide
  · decide

/-- C4 (amended): the persisted expense history is loaded from
`data/expense_history.json` at the start of a run; at the end of the run
the expense-tracking stage's raw output is written to that file in write
mode, replacing the previous contents rather than extending them. -/
theorem expense_history_loaded_then_overwritten
    (dump : Json → String) (parse : String → Option Json) (fs : FS)
    (s : String) (j : Json) (exec : TaskSpec → List String → String)
    (hs : fsRead fs expense_history_path = some s) (hne : s ≠ "")
    (hp : parse s = some j) :
    (initExpenseHistory dump parse fs).expense_history = j
    ∧ fsRead (runCrewFiles exec (initExpenseHistory dump parse fs).fs).1
        expense_history_path
      = (runCrewFiles exec (initExpenseHistory dump parse fs).fs).2.getLast? := by
  constructor
  · unfold initExpenseHistory
    rw [hs]
    simp [hne, hp]
  · exact runCrewFiles_expense_file exec (initExpenseHistory dump parse fs).fs

/-- Witness for C4's amended theorem: a concrete loadable history and a
constant executor. -/
theorem expense_history_loaded_then_overwritten_witness :
    (initExpenseHistory (fun _ => "dumped-default") (fun _ => some .null)
      [(expense_history_path, "old-expense-entry")]).expense_history = .null
    ∧ fsRead (runCrewFiles (fun _ _ => "new-run-summary")
        (initExpenseHistory (fun _ => "dumped-default")
          (fun _ => some .null)
          [(expense_history_path, "old-expense-entry")]).fs).1
        expense_history_path
      = (runCrewFiles (fun _ _ => "new-run-summary")
          (initExpenseHistory (fun _ => "dumped-default")
            (fun _ => some .null)
            [(expense_history_path, "old-expense-entry")]).fs).2.getLast? :=
  expense_history_loaded_then_overwritten (fun _ => "dumped-default")
    (fun _ => some .null) [(expense_history_path, "old-expense-entry")]
    "old-expense-entry" .null (fun _ _ => "new-run-summary")
    (by decide) (by decide) rfl

end GroceryAgent
